import Mathlib

/-
  Verification of the market-pulse dashboard core (src/app.py).

  The pipeline works on pandas float64 columns, so a cell is either a real
  number or NaN.  We model such a value as `F`: either `F.nan` or `F.val q`
  with `q : ℚ`.  Python/numpy arithmetic propagates NaN, and every ordered
  comparison involving NaN is false; `F.add`/`F.blt` etc. mirror that.
  `pymin`/`pymax` mirror CPython's two-argument `min`/`max`, which return the
  first argument when the comparison with NaN is false.
-/

namespace MarketPulse

/-- A float cell of a pandas column: a rational number or NaN. -/
inductive F where
  | nan : F
  | val : ℚ → F
deriving DecidableEq

def F.add : F → F → F
  | F.val a, F.val b => F.val (a + b)
  | _, _ => F.nan

def F.sub : F → F → F
  | F.val a, F.val b => F.val (a - b)
  | _, _ => F.nan

def F.mul : F → F → F
  | F.val a, F.val b => F.val (a * b)
  | _, _ => F.nan

def F.div : F → F → F
  | F.val a, F.val b => F.val (a / b)
  | _, _ => F.nan

def F.abs : F → F
  | F.val a => F.val |a|
  | F.nan => F.nan

instance : Add F := ⟨F.add⟩

instance : Sub F := ⟨F.sub⟩

instance : Mul F := ⟨F.mul⟩

instance : Div F := ⟨F.div⟩

/-- Python `a < b` on floats: false when either side is NaN. -/
def F.blt : F → F → Bool
  | F.val a, F.val b => decide (a < b)
  | _, _ => false

/-- Python `a <= b` on floats: false when either side is NaN. -/
def F.ble : F → F → Bool
  | F.val a, F.val b => decide (a ≤ b)
  | _, _ => false

/-- CPython built-in `min(a, b)`: returns `b` only when `b < a` is true. -/
def pymin (a b : F) : F := if F.blt b a then b else a

/-- CPython built-in `max(a, b)`: returns `b` only when `a < b` is true. -/
def pymax (a b : F) : F := if F.blt a b then b else a

/-
  Composite score model (src/app.py lines 148-216).

  `calculate_composite_score(row)` reads seven numeric fields out of the
  per-date row of the merged dataframe with `row.get(key, default)` — the
  default is used only when the key is absent — and looks the date up in the
  (reindexed) VIX and PCR series with `series.get(row.name, default)`.
  A `ScoreRow` therefore stores each dataframe field as `Option F`
  (`none` = column absent for that row), and the two series lookups are
  passed in the same way.  The seven in-place `score += ...` updates become
  seven stage functions applied in the source's order.
-/

/-- The per-date row fields consumed by `calculate_composite_score`. -/
structure ScoreRow where
  Dev_50 : Option F
  Dev_100 : Option F
  Dev_200 : Option F
  Breadth : Option F
  Junk_Spread : Option F
  Yield_Curve : Option F
  Momentum_5D : Option F

/-- Stage 1 of `calculate_composite_score`: price-deviation adjustment. -/
def devStage (row : ScoreRow) (score : F) : F :=
  let dev_avg := (row.Dev_50.getD (F.val 0) + row.Dev_100.getD (F.val 0) +
      row.Dev_200.getD (F.val 0)) / F.val 3
  if F.blt (F.val (-2)) dev_avg && F.blt dev_avg (F.val 5) then score + F.val 10
  else if F.blt dev_avg (F.val (-10)) || F.blt (F.val 15) dev_avg then score - F.val 15
  else score + (F.val 5 - dev_avg.abs / F.val 5)

/-- Stage 2 of `calculate_composite_score`: VIX adjustment.
`vixLookup` is `vix_series.get(row.name, 20)`: `none` when the date is
absent from the reindexed VIX series. -/
def vixStage (vixLookup : Option F) (score : F) : F :=
  let vix_val := vixLookup.getD (F.val 20)
  if F.blt vix_val (F.val 16) then score + F.val 10
  else if F.blt (F.val 30) vix_val then score - F.val 10
  else score + (F.val 30 - vix_val) / F.val 1.5

/-- Stage 3 of `calculate_composite_score`: market-breadth adjustment. -/
def breadthStage (row : ScoreRow) (score : F) : F :=
  let breadth_val := row.Breadth.getD (F.val 50)
  if F.blt (F.val 70) breadth_val then score + F.val 7.5
  else if F.blt breadth_val (F.val 30) then score - F.val 7.5
  else score + (breadth_val - F.val 50) / F.val 4

/-- Stage 4 of `calculate_composite_score`: junk-spread adjustment. -/
def spreadStage (row : ScoreRow) (score : F) : F :=
  let spread_val := row.Junk_Spread.getD (F.val 0)
  if F.blt spread_val (F.val (-2)) then score + F.val 7.5
  else if F.blt (F.val 5) spread_val then score - F.val 7.5
  else score - spread_val * F.val 1.5

/-- Stage 5 of `calculate_composite_score`: yield-curve adjustment. -/
def yieldStage (row : ScoreRow) (score : F) : F :=
  let yield_val := row.Yield_Curve.getD (F.val 0)
  if F.blt (F.val 0.1) yield_val then score + F.val 7.5
  else if F.blt yield_val (F.val (-0.2)) then score - F.val 7.5
  else score + yield_val * F.val 30

/-- Stage 6 of `calculate_composite_score`: put/call-ratio adjustment.
`pcrLookup` is `pcr_series.get(row.name, 1.0)`. -/
def pcrStage (pcrLookup : Option F) (score : F) : F :=
  let pcr_val := pcrLookup.getD (F.val 1)
  if F.blt pcr_val (F.val 0.8) then score - F.val 5
  else if F.blt (F.val 1.2) pcr_val then score + F.val 5
  else score + (F.val 1 - pcr_val) * F.val 10

/-- Stage 7 of `calculate_composite_score`: 5-day momentum adjustment. -/
def momStage (row : ScoreRow) (score : F) : F :=
  let mom_val := row.Momentum_5D.getD (F.val 0)
  if F.blt (F.val 3) mom_val then score + F.val 2.5
  else if F.blt mom_val (F.val (-3)) then score - F.val 2.5
  else score + mom_val / F.val 1.5

/-- Final clamp of `calculate_composite_score`: `max(0, min(100, score))`. -/
def clampStage (score : F) : F := pymax (F.val 0) (pymin (F.val 100) score)

/-- `calculate_composite_score` (src/app.py lines 148-216): baseline 50,
seven sequential adjustments, then the 0-100 clamp. -/
def calculate_composite_score (row : ScoreRow) (vixLookup pcrLookup : Option F) : F :=
  clampStage (momStage row (pcrStage pcrLookup (yieldStage row (spreadStage row
    (breadthStage row (vixStage vixLookup (devStage row (F.val 50))))))))

/-- The row in which every sub-signal carries its documented neutral value. -/
def defaultsRow : ScoreRow :=
  ⟨some (F.val 0), some (F.val 0), some (F.val 0), some (F.val 50), some (F.val 0),
    some (F.val 0), some (F.val 0)⟩

/-- The all-defaults row except that `Dev_50` is present but NaN, as happens on
every date with fewer than 50 closes of history. -/
def nanDevRow : ScoreRow :=
  ⟨some F.nan, some (F.val 0), some (F.val 0), some (F.val 50), some (F.val 0),
    some (F.val 0), some (F.val 0)⟩

/-
  Risk-signal detector (src/app.py lines 222-263).

  Rule 3 ("death cross", lines 243-248) reads the MA_50/MA_200 columns of the
  evaluated row and of the immediately preceding row; both columns are float
  columns, so the detector is modelled over lists of `F`.  Rule 2 ("breadth
  exhaustion", lines 234-241) fires only when the evaluated row is the last
  row of the dataframe and compares the row's Close and Breadth against the
  maxima of `.tail(20)` of the Close and Breadth columns; Close and Breadth
  are always real numbers in the pipeline, so rule 2 is modelled over `ℚ`.
-/

/-- Rule 3 of `identify_risk_signals`: the death-cross signal fires at row `i`
when `MA_50 < MA_200` there, `i` is not the first row, and the preceding row
has `MA_50 >= MA_200` (Python float comparisons, false on NaN). -/
def deathCross (ma50 ma200 : List F) (i : ℕ) : Bool :=
  F.blt (ma50.getD i F.nan) (ma200.getD i F.nan) && decide (0 < i) &&
    F.ble (ma200.getD (i - 1) F.nan) (ma50.getD (i - 1) F.nan)

/-- The last 20 rows of a column, `df[col].tail(20)`. -/
def tail20 (xs : List ℚ) : List ℚ := xs.drop (xs.length - 20)

/-- The 20-day trailing maximum of a column at row `i`, inclusive of row `i`. -/
def trailingMax20 (xs : List ℚ) (i : ℕ) : ℚ :=
  (((xs.take (i + 1)).drop (i + 1 - 20)).max?).getD 0

/-- Rule 2 of `identify_risk_signals`: the breadth-exhaustion signal fires at
row `i` only when `i` is the most recent row, the row's close is at least
`0.99 * max(close.tail(20))` and its breadth is below
`0.95 * max(breadth.tail(20))`. -/
def breadthExhaustion (closes breadths : List ℚ) (i : ℕ) : Bool :=
  if i + 1 = closes.length then
    match (tail20 closes).max?, (tail20 breadths).max? with
    | some recent_high, some recent_breadth_high =>
        decide (recent_high * 0.99 ≤ closes.getD i 0) &&
          decide (breadths.getD i 0 < recent_breadth_high * 0.95)
    | _, _ => false
  else false

/-
  Indicator and auxiliary-proxy calculators (src/app.py lines 91-134) and the
  emptiness check of the fetch step (lines 47-50).
-/

/-- One trading day of the primary instrument, restricted to the OHLC columns
the indicator pipeline consumes. -/
structure PriceBar where
  high : ℚ
  low : ℚ
  close : ℚ
deriving Inhabited, DecidableEq

/-- A `PriceBar` decorated with the derived columns of
`calculate_technical_indicators`; a column that talib leaves NaN for lack of
window history is `none`. -/
structure IndicatorRow where
  close : ℚ
  MA_50 : Option ℚ
  MA_100 : Option ℚ
  MA_200 : Option ℚ
  Dev_50 : Option ℚ
  Dev_100 : Option ℚ
  Dev_200 : Option ℚ
  Momentum_5D : Option ℚ
  ATR : Option ℚ
  RSI : Option ℚ
deriving Inhabited, DecidableEq

/-- `talib.SMA(close, n)` at row `i` (also `rolling(n).mean()`): the mean of the
trailing `n` closes inclusive of row `i`, undefined for the first `n - 1` rows. -/
def sma (n : ℕ) (closes : List ℚ) (i : ℕ) : Option ℚ :=
  if i + 1 < n then none else some (((closes.drop (i + 1 - n)).take n).sum / (n : ℚ))

/-- `close.pct_change(5) * 100` at row `i`: undefined for the first 5 rows. -/
def momentum5 (closes : List ℚ) (i : ℕ) : Option ℚ :=
  if i < 5 then none else some ((closes.getD i 0 / closes.getD (i - 5) 0 - 1) * 100)

/-- The true range at row `t`:
`max(high - low, |high - prev_close|, |low - prev_close|)`. -/
def trueRange (bars : List PriceBar) (t : ℕ) : ℚ :=
  let b := bars.getD t default
  let prev_close := (bars.getD (t - 1) default).close
  max (b.high - b.low) (max |b.high - prev_close| |b.low - prev_close|)

/-- Wilder smoothing with period 14, as used by `talib.ATR` and `talib.RSI`:
undefined before row 14, seeded at row 14 with the simple mean of
`f 1 .. f 14`, then `avg_t = (avg_(t-1) * 13 + f t) / 14`. -/
def wilderAvg (f : ℕ → ℚ) : ℕ → Option ℚ
  | 0 => none
  | t + 1 =>
    if t + 1 < 14 then none
    else if t + 1 = 14 then some ((((List.range 14).map fun k => f (k + 1)).sum) / 14)
    else (wilderAvg f t).map fun prev => (prev * 13 + f (t + 1)) / 14

/-- The close-to-close gain at row `t` (0 when the close fell). -/
def gainAt (closes : List ℚ) (t : ℕ) : ℚ :=
  max (closes.getD t 0 - closes.getD (t - 1) 0) 0

/-- The close-to-close loss at row `t` (0 when the close rose). -/
def lossAt (closes : List ℚ) (t : ℕ) : ℚ :=
  max (closes.getD (t - 1) 0 - closes.getD t 0) 0

/-- `talib.RSI(close, 14)` at row `t`: `100 * avgGain / (avgGain + avgLoss)`
over the Wilder-smoothed averages (in ℚ a zero denominator yields 0, matching
talib's zero guard for a flat series). -/
def rsi14 (closes : List ℚ) (t : ℕ) : Option ℚ :=
  match wilderAvg (gainAt closes) t, wilderAvg (lossAt closes) t with
  | some g, some l => some (100 * g / (g + l))
  | _, _ => none

/-- `calculate_technical_indicators` (src/app.py lines 91-115): decorates each
row with MA_50/100/200, Dev_50/100/200, Momentum_5D, ATR and RSI.  Fields are
listed positionally in the order of the `IndicatorRow` structure. -/
def calculate_technical_indicators (bars : List PriceBar) : List IndicatorRow :=
  let closes := bars.map fun b => b.close
  (List.range bars.length).map fun i =>
    IndicatorRow.mk (closes.getD i 0)
      (sma 50 closes i) (sma 100 closes i) (sma 200 closes i)
      ((sma 50 closes i).map fun m => (closes.getD i 0 / m - 1) * 100)
      ((sma 100 closes i).map fun m => (closes.getD i 0 / m - 1) * 100)
      ((sma 200 closes i).map fun m => (closes.getD i 0 / m - 1) * 100)
      (momentum5 closes i)
      (wilderAvg (trueRange bars) i)
      (rsi14 closes i)

/-- The emptiness check of `fetch_all_data` (src/app.py lines 47-50): an empty
primary download is reported as an error (`None` result, modelled `none`); any
non-empty download flows on unchanged.  The downloads themselves are external
I/O outside the core. -/
def fetch_all_data (ticker_data : List PriceBar) : Option (List PriceBar) :=
  if ticker_data.isEmpty then none else some ticker_data

/-- `calculate_market_breadth` (src/app.py lines 117-121):
`(close > close.rolling(50).mean()).astype(int) * 100`.  Where the rolling mean
is NaN (first 49 rows) the pandas comparison is False, so the produced column
is the defined number 0 there — never NaN. -/
def calculate_market_breadth (closes : List ℚ) : List F :=
  (List.range closes.length).map fun i =>
    match sma 50 closes i with
    | none => F.val 0
    | some m => F.val (if m < closes.getD i 0 then 100 else 0)

/-
  Series aligner (src/app.py lines 143-145):
  `vix_df['Close'].reindex(common_index).ffill()` and the same for the PCR
  estimate.  `reindex` keeps, for each primary date, the auxiliary observation
  at exactly that date (NaN otherwise, dropping auxiliary observations at
  dates not in the primary index); `ffill` then carries the last defined value
  forward.
-/

/-- One `ffill` step: a defined cell replaces the carry, NaN keeps it. -/
def obsStep (carry x : Option ℚ) : Option ℚ :=
  match x with
  | some v => some v
  | none => carry

/-- `Series.ffill()` with an explicit incoming carry. -/
def ffillAux (carry : Option ℚ) : List (Option ℚ) → List (Option ℚ)
  | [] => []
  | x :: rest => obsStep carry x :: ffillAux (obsStep carry x) rest

/-- `Series.reindex(primary_index)`: for each primary date, the auxiliary
observation at exactly that date, else NaN. -/
def reindexSeries (primary : List ℕ) (auxSeries : List (ℕ × ℚ)) : List (Option ℚ) :=
  primary.map fun d => auxSeries.lookup d

/-- The alignment block: `reindex` onto the primary index, then `ffill`. -/
def alignSeries (primary : List ℕ) (auxSeries : List (ℕ × ℚ)) : List (Option ℚ) :=
  ffillAux none (reindexSeries primary auxSeries)

/-- The last defined value of a list of cells, starting from a carry. -/
def lastObs (carry : Option ℚ) (l : List (Option ℚ)) : Option ℚ :=
  l.foldl obsStep carry

/-- Modelled from the spec: "for any primary date with no exact auxiliary
observation, carry forward the most recent prior auxiliary value" — the value
of the auxiliary observation with the greatest date at most `d`, for an
auxiliary series listed in increasing date order. -/
def specMostRecentPrior (auxSeries : List (ℕ × ℚ)) (d : ℕ) : Option ℚ :=
  lastObs none ((auxSeries.filter fun e => decide (e.1 ≤ d)).map fun e => some e.2)

/-
  Helper lemmas.
-/

@[simp] theorem F.val_add (a b : ℚ) : F.val a + F.val b = F.val (a + b) := rfl

@[simp] theorem F.val_sub (a b : ℚ) : F.val a - F.val b = F.val (a - b) := rfl

@[simp] theorem F.val_mul (a b : ℚ) : F.val a * F.val b = F.val (a * b) := rfl

@[simp] theorem F.val_div (a b : ℚ) : F.val a / F.val b = F.val (a / b) := rfl

@[simp] theorem F.nan_add (x : F) : F.nan + x = F.nan := by cases x <;> rfl

@[simp] theorem F.add_nan (x : F) : x + F.nan = F.nan := by cases x <;> rfl

@[simp] theorem F.nan_sub (x : F) : F.nan - x = F.nan := by cases x <;> rfl

@[simp] theorem F.sub_nan (x : F) : x - F.nan = F.nan := by cases x <;> rfl

@[simp] theorem F.nan_mul (x : F) : F.nan * x = F.nan := by cases x <;> rfl

@[simp] theorem F.mul_nan (x : F) : x * F.nan = F.nan := by cases x <;> rfl

@[simp] theorem F.nan_div (x : F) : F.nan / x = F.nan := by cases x <;> rfl

@[simp] theorem F.div_nan (x : F) : x / F.nan = F.nan := by cases x <;> rfl

@[simp] theorem F.abs_nan : F.nan.abs = F.nan := rfl

@[simp] theorem F.abs_val (a : ℚ) : (F.val a).abs = F.val |a| := rfl

@[simp] theorem F.blt_val (a b : ℚ) : F.blt (F.val a) (F.val b) = decide (a < b) := rfl

@[simp] theorem F.ble_val (a b : ℚ) : F.ble (F.val a) (F.val b) = decide (a ≤ b) := rfl

@[simp] theorem F.blt_nan_left (x : F) : F.blt F.nan x = false := by cases x <;> rfl

@[simp] theorem F.blt_nan_right (x : F) : F.blt x F.nan = false := by cases x <;> rfl

@[simp] theorem F.ble_nan_left (x : F) : F.ble F.nan x = false := by cases x <;> rfl

@[simp] theorem F.ble_nan_right (x : F) : F.ble x F.nan = false := by cases x <;> rfl

@[simp] theorem F.val_inj (a b : ℚ) : F.val a = F.val b ↔ a = b :=
  ⟨fun h => F.val.inj h, fun h => by rw [h]⟩

@[simp] theorem devStage_nan (row : ScoreRow) : devStage row F.nan = F.nan := by
  simp [devStage]

@[simp] theorem vixStage_nan (vixLookup : Option F) : vixStage vixLookup F.nan = F.nan := by
  simp [vixStage]

@[simp] theorem breadthStage_nan (row : ScoreRow) : breadthStage row F.nan = F.nan := by
  simp [breadthStage]

@[simp] theorem spreadStage_nan (row : ScoreRow) : spreadStage row F.nan = F.nan := by
  simp [spreadStage]

@[simp] theorem yieldStage_nan (row : ScoreRow) : yieldStage row F.nan = F.nan := by
  simp [yieldStage]

@[simp] theorem pcrStage_nan (pcrLookup : Option F) : pcrStage pcrLookup F.nan = F.nan := by
  simp [pcrStage]

@[simp] theorem momStage_nan (row : ScoreRow) : momStage row F.nan = F.nan := by
  simp [momStage]

@[simp] theorem clampStage_nan : clampStage F.nan = F.val 100 := by
  norm_num [clampStage, pymin, pymax]

theorem devStage_of_nan_field (row : ScoreRow) (s : F)
    (h : row.Dev_50 = some F.nan ∨ row.Dev_100 = some F.nan ∨ row.Dev_200 = some F.nan) :
    devStage row s = F.nan := by
  rcases h with h | h | h <;> simp [devStage, h]

theorem breadthStage_of_nan_field (row : ScoreRow) (s : F) (h : row.Breadth = some F.nan) :
    breadthStage row s = F.nan := by
  simp [breadthStage, h]

theorem spreadStage_of_nan_field (row : ScoreRow) (s : F) (h : row.Junk_Spread = some F.nan) :
    spreadStage row s = F.nan := by
  simp [spreadStage, h]

theorem yieldStage_of_nan_field (row : ScoreRow) (s : F) (h : row.Yield_Curve = some F.nan) :
    yieldStage row s = F.nan := by
  simp [yieldStage, h]

theorem momStage_of_nan_field (row : ScoreRow) (s : F) (h : row.Momentum_5D = some F.nan) :
    momStage row s = F.nan := by
  simp [momStage, h]

theorem pymin_val (a b : ℚ) : pymin (F.val a) (F.val b) = F.val (if b < a then b else a) := by
  simp only [pymin, F.blt_val]
  by_cases h : b < a <;> simp [h]

theorem pymax_val (a b : ℚ) : pymax (F.val a) (F.val b) = F.val (if a < b then b else a) := by
  simp only [pymax, F.blt_val]
  by_cases h : a < b <;> simp [h]

theorem clampStage_mem (s : F) : ∃ r : ℚ, clampStage s = F.val r ∧ 0 ≤ r ∧ r ≤ 100 := by
  cases s with
  | nan => exact ⟨100, clampStage_nan, by norm_num, by norm_num⟩
  | val q =>
    rw [clampStage, pymin_val, pymax_val]
    refine ⟨_, rfl, ?_, ?_⟩ <;> split_ifs <;> linarith

theorem clampStage_val_of (q : ℚ) (h0 : 0 ≤ q) (h100 : q ≤ 100) :
    clampStage (F.val q) = F.val q := by
  rw [clampStage, pymin_val, pymax_val]
  split_ifs with h1 h2 h3 <;> simp only [F.val_inj] <;> linarith

theorem devStage_default (row : ScoreRow)
    (h1 : row.Dev_50.getD (F.val 0) = F.val 0) (h2 : row.Dev_100.getD (F.val 0) = F.val 0)
    (h3 : row.Dev_200.getD (F.val 0) = F.val 0) (q : ℚ) :
    devStage row (F.val q) = F.val (q + 10) := by
  unfold devStage
  rw [h1, h2, h3]
  norm_num

theorem vixStage_default (vixLookup : Option F) (h : vixLookup.getD (F.val 20) = F.val 20)
    (q : ℚ) : vixStage vixLookup (F.val q) = F.val (q + 20 / 3) := by
  unfold vixStage
  rw [h]
  norm_num

theorem breadthStage_default (row : ScoreRow) (h : row.Breadth.getD (F.val 50) = F.val 50)
    (q : ℚ) : breadthStage row (F.val q) = F.val q := by
  unfold breadthStage
  rw [h]
  norm_num

theorem spreadStage_default (row : ScoreRow) (h : row.Junk_Spread.getD (F.val 0) = F.val 0)
    (q : ℚ) : spreadStage row (F.val q) = F.val q := by
  unfold spreadStage
  rw [h]
  norm_num

theorem yieldStage_default (row : ScoreRow) (h : row.Yield_Curve.getD (F.val 0) = F.val 0)
    (q : ℚ) : yieldStage row (F.val q) = F.val q := by
  unfold yieldStage
  rw [h]
  norm_num

theorem pcrStage_default (pcrLookup : Option F) (h : pcrLookup.getD (F.val 1) = F.val 1)
    (q : ℚ) : pcrStage pcrLookup (F.val q) = F.val q := by
  unfold pcrStage
  rw [h]
  norm_num

theorem momStage_default (row : ScoreRow) (h : row.Momentum_5D.getD (F.val 0) = F.val 0)
    (q : ℚ) : momStage row (F.val q) = F.val q := by
  unfold momStage
  rw [h]
  norm_num

theorem getD_map_val (l : List ℚ) (j : ℕ) (h : j < l.length) :
    (l.map F.val).getD j F.nan = F.val (l.getD j 0) := by
  rw [List.getD_eq_getElem?_getD, List.getD_eq_getElem?_getD, List.getElem?_map,
    List.getElem?_eq_getElem h]
  rfl

theorem rangeMap_getD {α : Type} (f : ℕ → α) (n i : ℕ) (d : α) (h : i < n) :
    ((List.range n).map f).getD i d = f i := by
  rw [List.getD_eq_getElem?_getD, List.getElem?_map, List.getElem?_range h]
  rfl

/-
  Claim theorems.
-/

/-- C1 (counterexample): on the row in which every one of the seven sub-signals
takes its documented default/neutral value (dev components 0, vix 20, breadth 50,
junk_spread 0, yield_curve 0, pcr 1.0, momentum 0), `calculate_composite_score`
does not return 50: dev_avg = 0 lands in the `-2 < dev_avg < 5` branch (+10) and
vix = 20 adds (30-20)/1.5, so the score is 200/3. -/
theorem C1_baseline_counterexample :
    calculate_composite_score defaultsRow (some (F.val 20)) (some (F.val 1)) ≠ F.val 50 := by
  rw [calculate_composite_score, devStage_default defaultsRow rfl rfl rfl,
    vixStage_default (some (F.val 20)) rfl, breadthStage_default defaultsRow rfl,
    spreadStage_default defaultsRow rfl, yieldStage_default defaultsRow rfl,
    pcrStage_default (some (F.val 1)) rfl, momStage_default defaultsRow rfl,
    clampStage_val_of _ (by norm_num) (by norm_num)]
  simp only [ne_eq, F.val_inj]
  norm_num

/-- C1 (amended): for every row in which each of the seven sub-signals takes its
documented default/neutral value (dev_avg = 0, vix = 20, breadth = 50,
junk_spread = 0, yield_curve = 0, pcr = 1.0, momentum = 0),
`calculate_composite_score` returns exactly 200/3 (about 66.67): the neutral
baseline 50 plus 10 from the in-range deviation branch plus (30-20)/1.5 from the
vix branch; the five remaining adjustments are 0. -/
theorem C1_all_defaults_score (row : ScoreRow) (vixLookup pcrLookup : Option F)
    (h1 : row.Dev_50.getD (F.val 0) = F.val 0)
    (h2 : row.Dev_100.getD (F.val 0) = F.val 0)
    (h3 : row.Dev_200.getD (F.val 0) = F.val 0)
    (h4 : row.Breadth.getD (F.val 50) = F.val 50)
    (h5 : row.Junk_Spread.getD (F.val 0) = F.val 0)
    (h6 : row.Yield_Curve.getD (F.val 0) = F.val 0)
    (h7 : row.Momentum_5D.getD (F.val 0) = F.val 0)
    (h8 : vixLookup.getD (F.val 20) = F.val 20)
    (h9 : pcrLookup.getD (F.val 1) = F.val 1) :
    calculate_composite_score row vixLookup pcrLookup = F.val (200 / 3) := by
  rw [calculate_composite_score, devStage_default _ h1 h2 h3, vixStage_default _ h8,
    breadthStage_default _ h4, spreadStage_default _ h5, yieldStage_default _ h6,
    pcrStage_default _ h9, momStage_default _ h7,
    clampStage_val_of _ (by norm_num) (by norm_num)]
  simp only [F.val_inj]
  norm_num

/-- C1 (witness): the amended statement evaluated on the concrete all-defaults row. -/
theorem C1_all_defaults_score_witness :
    calculate_composite_score defaultsRow (some (F.val 20)) (some (F.val 1)) =
      F.val (200 / 3) :=
  C1_all_defaults_score defaultsRow (some (F.val 20)) (some (F.val 1))
    rfl rfl rfl rfl rfl rfl rfl rfl rfl

/-- C2: for every input row, whatever the magnitudes of the seven adjustments
(and even when NaN fields drive the pre-clamp sum to NaN), the value returned by
`calculate_composite_score` is a number in the closed interval [0, 100]. -/
theorem C2_clamp_invariant (row : ScoreRow) (vixLookup pcrLookup : Option F) :
    ∃ r : ℚ, calculate_composite_score row vixLookup pcrLookup = F.val r ∧
      0 ≤ r ∧ r ≤ 100 := by
  rw [calculate_composite_score]
  exact clampStage_mem _

/-- C3: for every row in which at least one consumed numeric field (Dev_50,
Dev_100, Dev_200, Breadth, Junk_Spread, Yield_Curve or Momentum_5D) is present
but NaN, `calculate_composite_score` returns exactly 100: the key exists so
`row.get` never yields the documented default, the NaN propagates through the
additive sum, and `max(0, min(100, NaN))` evaluates to 100. -/
theorem C3_nan_row_scores_100 (row : ScoreRow) (vixLookup pcrLookup : Option F)
    (h : row.Dev_50 = some F.nan ∨ row.Dev_100 = some F.nan ∨ row.Dev_200 = some F.nan ∨
      row.Breadth = some F.nan ∨ row.Junk_Spread = some F.nan ∨
      row.Yield_Curve = some F.nan ∨ row.Momentum_5D = some F.nan) :
    calculate_composite_score row vixLookup pcrLookup = F.val 100 := by
  rw [calculate_composite_score]
  rcases h with h | h | h | h | h | h | h
  · rw [devStage_of_nan_field _ _ (Or.inl h)]; simp
  · rw [devStage_of_nan_field _ _ (Or.inr (Or.inl h))]; simp
  · rw [devStage_of_nan_field _ _ (Or.inr (Or.inr h))]; simp
  · rw [breadthStage_of_nan_field _ _ h]; simp
  · rw [spreadStage_of_nan_field _ _ h]; simp
  · rw [yieldStage_of_nan_field _ _ h]; simp
  · rw [momStage_of_nan_field _ _ h]; simp

/-- C3 (witness): a concrete row whose `Dev_50` key is present but NaN (all
other signals neutral) scores exactly 100. -/
theorem C3_nan_row_scores_100_witness :
    calculate_composite_score nanDevRow (some (F.val 20)) (some (F.val 1)) = F.val 100 :=
  C3_nan_row_scores_100 nanDevRow (some (F.val 20)) (some (F.val 1)) (Or.inl rfl)

/-- C4 (code evaluation at the failing input): on a date whose `Dev_50` column is
present but NaN — which is what insufficient 50-day history produces in the
pipeline — the code does not substitute the documented neutral default 0 (which
would give 200/3); the NaN propagates and the clamp returns the maximal score 100. -/
theorem C4_undefined_field_eval :
    calculate_composite_score nanDevRow (some (F.val 20)) (some (F.val 1)) = F.val 100 := by
  rw [calculate_composite_score, devStage_of_nan_field _ _ (Or.inl rfl)]
  simp

/-- C9: the volatility sub-adjustment of the composite score is exactly -10 at
vix = 40, exactly +10 at vix = 10, exactly (30-20)/1.5 at vix = 20; in general it
is +10 for vix < 16, -10 for vix > 30, and (30-vix)/1.5 otherwise. -/
theorem C9_vix_adjustment :
    (∀ s : F, vixStage (some (F.val 40)) s = s - F.val 10) ∧
    (∀ s : F, vixStage (some (F.val 10)) s = s + F.val 10) ∧
    (∀ s : F, vixStage (some (F.val 20)) s = s + F.val ((30 - 20) / 1.5)) ∧
    (∀ v : ℚ, v < 16 → ∀ s : F, vixStage (some (F.val v)) s = s + F.val 10) ∧
    (∀ v : ℚ, 30 < v → ∀ s : F, vixStage (some (F.val v)) s = s - F.val 10) ∧
    (∀ v : ℚ, 16 ≤ v → v ≤ 30 → ∀ s : F,
      vixStage (some (F.val v)) s = s + F.val ((30 - v) / 1.5)) := by
  refine ⟨fun s => ?_, fun s => ?_, fun s => ?_, fun v hv s => ?_, fun v hv s => ?_,
    fun v hv1 hv2 s => ?_⟩
  · norm_num [vixStage]
  · norm_num [vixStage]
  · norm_num [vixStage]
  · have h1 : ¬(30 : ℚ) < v := by linarith
    simp [vixStage, hv, h1]
  · have h1 : ¬v < (16 : ℚ) := by linarith
    simp [vixStage, hv, h1]
  · have h1 : ¬v < (16 : ℚ) := not_lt.mpr hv1
    have h2 : ¬(30 : ℚ) < v := not_lt.mpr hv2
    simp [vixStage, h1, h2]

/-- C9 (witness): the general in-band branch applied at vix = 17. -/
theorem C9_vix_adjustment_witness :
    vixStage (some (F.val 17)) (F.val 0) = F.val 0 + F.val ((30 - 17) / 1.5) :=
  C9_vix_adjustment.2.2.2.2.2 17 (by norm_num) (by norm_num) (F.val 0)

/-- C5: the death-cross rule fires at a row exactly when `ma_50 < ma_200` there
and `ma_50 >= ma_200` at the immediately preceding row (so the row is not the
first); consequently, while the condition `ma_50 < ma_200` persists from the
previous day, the signal never fires again. -/
theorem C5_death_cross_transition (ma50 ma200 : List ℚ) (i : ℕ)
    (hi : i < ma50.length) (hlen : ma200.length = ma50.length) :
    (deathCross (ma50.map F.val) (ma200.map F.val) i = true ↔
      (0 < i ∧ ma50.getD i 0 < ma200.getD i 0 ∧
        ma200.getD (i - 1) 0 ≤ ma50.getD (i - 1) 0)) ∧
    (0 < i → ma50.getD (i - 1) 0 < ma200.getD (i - 1) 0 →
      deathCross (ma50.map F.val) (ma200.map F.val) i = false) := by
  have hi2 : i < ma200.length := by rw [hlen]; exact hi
  have hp : i - 1 < ma50.length := lt_of_le_of_lt (Nat.sub_le i 1) hi
  have hp2 : i - 1 < ma200.length := lt_of_le_of_lt (Nat.sub_le i 1) hi2
  rw [deathCross, getD_map_val ma50 i hi, getD_map_val ma200 i hi2,
    getD_map_val ma200 (i - 1) hp2, getD_map_val ma50 (i - 1) hp]
  constructor
  · simp only [F.blt_val, F.ble_val, Bool.and_eq_true, decide_eq_true_eq]
    tauto
  · intro hpos hlt
    simp only [F.blt_val, F.ble_val, Bool.and_eq_true, Bool.and_eq_false_iff,
      decide_eq_false_iff_not, not_le]
    exact Or.inr hlt

/-- C5 (witness): on the two-row series ma50 = [5, 3], ma200 = [4, 4], the
death cross fires at row 1. -/
theorem C5_death_cross_transition_witness :
    deathCross (([5, 3] : List ℚ).map F.val) (([4, 4] : List ℚ).map F.val) 1 = true :=
  (C5_death_cross_transition [5, 3] [4, 4] 1 (by norm_num) (by norm_num)).1.mpr
    ⟨by norm_num, by norm_num, by norm_num⟩

/-- C8: the breadth-exhaustion rule fires at a row exactly when the row is the
most recent one, its close is at least 0.99 times the 20-day trailing maximum
close, and its breadth is below 0.95 times the 20-day trailing maximum breadth
(both maxima inclusive of the evaluated date); at any earlier row the signal
never fires, whatever the numeric conditions. -/
theorem C8_breadth_exhaustion_latest_only (closes breadths : List ℚ) (i : ℕ)
    (hi : i < closes.length) (hlen : breadths.length = closes.length) :
    (breadthExhaustion closes breadths i = true ↔
      (i + 1 = closes.length ∧ trailingMax20 closes i * 0.99 ≤ closes.getD i 0 ∧
        breadths.getD i 0 < trailingMax20 breadths i * 0.95)) ∧
    (i + 1 < closes.length → breadthExhaustion closes breadths i = false) := by
  by_cases hlast : i + 1 = closes.length
  · have hc : closes.take (i + 1) = closes := by
      rw [hlast]; exact List.take_length closes
    have hb : breadths.take (i + 1) = breadths := by
      rw [hlast, ← hlen]; exact List.take_length breadths
    have htc : tail20 closes = (closes.take (i + 1)).drop (i + 1 - 20) := by
      rw [hc, tail20, hlast]
    have htb : tail20 breadths = (breadths.take (i + 1)).drop (i + 1 - 20) := by
      rw [hb, tail20, hlen, hlast]
    have hne : (tail20 closes) ≠ [] := by
      rw [tail20, ← List.length_pos_iff_ne_nil, List.length_drop]
      omega
    have hneb : (tail20 breadths) ≠ [] := by
      rw [tail20, ← List.length_pos_iff_ne_nil, List.length_drop]
      omega
    obtain ⟨rh, hrh⟩ : ∃ rh, (tail20 closes).max? = some rh := by
      cases h : (tail20 closes).max? with
      | none => exact absurd (List.max?_eq_none_iff.mp h) hne
      | some v => exact ⟨v, rfl⟩
    obtain ⟨rb, hrb⟩ : ∃ rb, (tail20 breadths).max? = some rb := by
      cases h : (tail20 breadths).max? with
      | none => exact absurd (List.max?_eq_none_iff.mp h) hneb
      | some v => exact ⟨v, rfl⟩
    have hmc : trailingMax20 closes i = rh := by
      rw [trailingMax20, ← htc, hrh]; rfl
    have hmb : trailingMax20 breadths i = rb := by
      rw [trailingMax20, ← htb, hrb]; rfl
    constructor
    · rw [breadthExhaustion, if_pos hlast, hrh, hrb, hmc, hmb]
      simp only [Bool.and_eq_true, decide_eq_true_eq]
      tauto
    · intro hlt
      omega
  · constructor
    · rw [breadthExhaustion, if_neg hlast]
      simp only [Bool.false_eq_true, false_iff, not_and]
      intro h
      exact absurd h hlast
    · intro _
      rw [breadthExhaustion, if_neg hlast]

/-- C8 (witness): with closes = [1, 1] and breadths = [100, 0], the signal fires
at the last row (close equals the 20-day max, breadth 0 is below 95). -/
theorem C8_breadth_exhaustion_latest_only_witness :
    breadthExhaustion [1, 1] [100, 0] 1 = true :=
  (C8_breadth_exhaustion_latest_only [1, 1] [100, 0] 1 (by norm_num) (by norm_num)).1.mpr
    ⟨rfl, by norm_num [trailingMax20, List.max?], by norm_num [trailingMax20, List.max?]⟩

/-- C6 (counterexample): with a single observation, the first row of the breadth
proxy is the defined number 0, not an undefined cell — the undefined rolling
mean makes the pandas comparison False, which `astype(int) * 100` turns into 0. -/
theorem C6_breadth_counterexample :
    (calculate_market_breadth [1]).getD 0 F.nan = F.val 0 ∧ F.val 0 ≠ F.nan := by
  refine ⟨rfl, fun h => F.noConfusion h⟩

/-- C6 (amended): for every date with at least 50 observations, the breadth
proxy equals 100 if the close strictly exceeds the trailing-50-day mean and 0
otherwise; for each of the first 49 observations, where no 50-day window
exists, the proxy is not undefined but the defined value 0 (the comparison
with the undefined mean is false). -/
theorem C6_breadth_proxy (closes : List ℚ) (i : ℕ) (hi : i < closes.length) :
    (i + 1 < 50 → (calculate_market_breadth closes).getD i F.nan = F.val 0) ∧
    (50 ≤ i + 1 → (calculate_market_breadth closes).getD i F.nan =
      F.val (if ((closes.drop (i + 1 - 50)).take 50).sum / 50 < closes.getD i 0
        then 100 else 0)) := by
  constructor
  · intro h
    rw [calculate_market_breadth, rangeMap_getD _ _ _ _ hi, sma, if_pos h]
  · intro h
    rw [calculate_market_breadth, rangeMap_getD _ _ _ _ hi, sma, if_neg (by omega)]
    norm_num

/-- C6 (witness): the amended statement evaluated on a one-day series (row 0 is
the defined value 0) and on a 50-day flat series (row 49 has close equal to the
mean, not above it, hence 0). -/
theorem C6_breadth_proxy_witness :
    (calculate_market_breadth [1]).getD 0 F.nan = F.val 0 ∧
    (calculate_market_breadth (List.replicate 50 1)).getD 49 F.nan = F.val 0 := by
  constructor
  · exact (C6_breadth_proxy [1] 0 (by norm_num)).1 (by norm_num)
  · have h := (C6_breadth_proxy (List.replicate 50 1) 49 (by simp)).2 (by norm_num)
    rw [h]
    norm_num [List.sum_replicate, List.take_replicate, List.getD_eq_getElem?_getD,
      List.getElem?_replicate]

/-
  ffill characterization: entry `i` of the filled series is the last defined
  cell among the first `i + 1` cells (or the incoming carry when none is).
-/

theorem lastObs_cons (c x : Option ℚ) (l : List (Option ℚ)) :
    lastObs c (x :: l) = lastObs (obsStep c x) l := rfl

theorem ffillAux_getD (l : List (Option ℚ)) : ∀ (c : Option ℚ) (i : ℕ), i < l.length →
    (ffillAux c l).getD i none = lastObs c (l.take (i + 1)) := by
  induction l with
  | nil =>
    intro c i h
    simp at h
  | cons x rest ih =>
    intro c i h
    cases i with
    | zero =>
      cases x <;> rfl
    | succ j =>
      have hj : j < rest.length := by simpa using h
      rw [ffillAux, List.getD_cons_succ, List.take_succ_cons, lastObs_cons]
      exact ih (obsStep c x) j hj

theorem alignSeries_getD (p : List ℕ) (a : List (ℕ × ℚ)) (i : ℕ) (hi : i < p.length) :
    (alignSeries p a).getD i none =
      lastObs none ((p.take (i + 1)).map fun d => a.lookup d) := by
  have hlen : i < (reindexSeries p a).length := by
    rw [reindexSeries, List.length_map]; exact hi
  rw [alignSeries, ffillAux_getD _ none i hlen, reindexSeries, List.map_take]

/-- C7 (counterexample): primary index {1, 3}, auxiliary observations at dates
1 (value 10) and 2 (value 20).  Date 3 has no exact auxiliary observation and
its most recent prior auxiliary observation is date 2's value 20, yet the
aligned value is 10: `reindex` before `ffill` drops the date-2 observation
because 2 is not in the primary index. -/
theorem C7_alignment_counterexample :
    List.lookup 3 [(1, (10 : ℚ)), (2, 20)] = none ∧
    (alignSeries [1, 3] [(1, (10 : ℚ)), (2, 20)]).getD 1 none = some 10 ∧
    specMostRecentPrior [(1, (10 : ℚ)), (2, 20)] 3 = some 20 ∧
    (alignSeries [1, 3] [(1, (10 : ℚ)), (2, 20)]).getD 1 none ≠
      specMostRecentPrior [(1, (10 : ℚ)), (2, 20)] 3 := by
  refine ⟨rfl, rfl, rfl, ?_⟩
  intro h
  have h10 : (10 : ℚ) = 20 := Option.some.inj h
  norm_num at h10

/-- C7 (amended): for every primary-index position, the aligned value is the
most recent auxiliary observation taken at a primary date at or before that
position (observations at dates outside the primary index are dropped by
`reindex`), and it is `none` when no such observation exists; consequently,
for a strictly increasing primary index, the aligned value never depends on
auxiliary observations dated after that primary date. -/
theorem C7_alignment_no_lookahead (p : List ℕ) (a b : List (ℕ × ℚ)) (i : ℕ)
    (hi : i < p.length) (hs : List.Pairwise (fun x y => x < y) p)
    (hagree : ∀ d : ℕ, d ≤ p.getD i 0 → a.lookup d = b.lookup d) :
    (alignSeries p a).getD i none =
      lastObs none ((p.take (i + 1)).map fun d => a.lookup d) ∧
    (alignSeries p a).getD i none = (alignSeries p b).getD i none := by
  refine ⟨alignSeries_getD p a i hi, ?_⟩
  rw [alignSeries_getD p a i hi, alignSeries_getD p b i hi]
  congr 1
  apply List.map_congr_left
  intro d hd
  apply hagree
  obtain ⟨j, hjlen, hdj⟩ := List.getElem_of_mem hd
  have hjlt : j < i + 1 := lt_of_lt_of_le hjlen (by rw [List.length_take]; exact min_le_left _ _)
  have hjp : j < p.length := lt_of_lt_of_le hjlt hi
  rw [List.getElem_take] at hdj
  rw [List.getD_eq_getElem p 0 hi, ← hdj]
  rcases Nat.lt_or_ge j i with hji | hji
  · exact le_of_lt (List.pairwise_iff_getElem.mp hs j i hjp hi hji)
  · have : j = i := by omega
    subst this
    exact le_refl _

/-- C7 (witness): the amended statement on primary index {1, 2, 3} with a single
auxiliary observation at date 1: position 2 carries date 1's value, and adding a
future observation at date 4 does not change it. -/
theorem C7_alignment_no_lookahead_witness :
    (alignSeries [1, 2, 3] [(1, (5 : ℚ))]).getD 2 none =
      lastObs none (([1, 2, 3].take 3).map fun d => List.lookup d [(1, (5 : ℚ))]) ∧
    (alignSeries [1, 2, 3] [(1, (5 : ℚ))]).getD 2 none =
      (alignSeries [1, 2, 3] [(1, (5 : ℚ)), (4, 99)]).getD 2 none :=
  C7_alignment_no_lookahead [1, 2, 3] [(1, 5)] [(1, 5), (4, 99)] 2 (by norm_num)
    (by norm_num) (by decide)

/-
  Undefined-prefix lemmas for the indicator columns.
-/

theorem wilderAvg_undefined (f : ℕ → ℚ) (t : ℕ) (h : t < 14) : wilderAvg f t = none := by
  cases t with
  | zero => rfl
  | succ n => rw [wilderAvg, if_pos h]

theorem rsi14_undefined (closes : List ℚ) (t : ℕ) (h : t < 14) : rsi14 closes t = none := by
  rw [rsi14, wilderAvg_undefined _ _ h, wilderAvg_undefined _ _ h]

/-- C10: the pipeline errors out exactly on an empty primary download (the
`fetch_all_data` emptiness check, modelled as a `none` result); every non-empty
input, however short, flows through `calculate_technical_indicators` without
error, producing one decorated row per bar in which each derived field whose
window exceeds the available history is undefined rather than an error. -/
theorem C10_insufficient_history :
    (∀ bars : List PriceBar, fetch_all_data bars = none ↔ bars = []) ∧
    (∀ bars : List PriceBar, bars ≠ [] →
      ∃ rows, fetch_all_data bars = some rows ∧
        (calculate_technical_indicators rows).length = rows.length) ∧
    (∀ bars : List PriceBar, ∀ i, i < bars.length →
      (i + 1 < 50 → ((calculate_technical_indicators bars).getD i default).MA_50 = none ∧
        ((calculate_technical_indicators bars).getD i default).Dev_50 = none) ∧
      (i + 1 < 100 → ((calculate_technical_indicators bars).getD i default).MA_100 = none ∧
        ((calculate_technical_indicators bars).getD i default).Dev_100 = none) ∧
      (i + 1 < 200 → ((calculate_technical_indicators bars).getD i default).MA_200 = none ∧
        ((calculate_technical_indicators bars).getD i default).Dev_200 = none) ∧
      (i < 5 → ((calculate_technical_indicators bars).getD i default).Momentum_5D = none) ∧
      (i < 14 → ((calculate_technical_indicators bars).getD i default).ATR = none ∧
        ((calculate_technical_indicators bars).getD i default).RSI = none)) := by
  refine ⟨fun bars => ?_, fun bars h => ?_, fun bars i hi => ?_⟩
  · cases bars with
    | nil => simp [fetch_all_data]
    | cons x rest => simp [fetch_all_data]
  · refine ⟨bars, ?_, ?_⟩
    · rw [fetch_all_data, if_neg (by simpa [List.isEmpty_iff] using h)]
    · rw [calculate_technical_indicators]
      simp
  · have hrow : (calculate_technical_indicators bars).getD i default =
        IndicatorRow.mk ((bars.map fun b => b.close).getD i 0)
          (sma 50 (bars.map fun b => b.close) i) (sma 100 (bars.map fun b => b.close) i)
          (sma 200 (bars.map fun b => b.close) i)
          ((sma 50 (bars.map fun b => b.close) i).map fun m =>
            ((bars.map fun b => b.close).getD i 0 / m - 1) * 100)
          ((sma 100 (bars.map fun b => b.close) i).map fun m =>
            ((bars.map fun b => b.close).getD i 0 / m - 1) * 100)
          ((sma 200 (bars.map fun b => b.close) i).map fun m =>
            ((bars.map fun b => b.close).getD i 0 / m - 1) * 100)
          (momentum5 (bars.map fun b => b.close) i)
          (wilderAvg (trueRange bars) i)
          (rsi14 (bars.map fun b => b.close) i) := by
      rw [calculate_technical_indicators]
      exact rangeMap_getD _ _ _ _ hi
    rw [hrow]
    refine ⟨fun h => ⟨?_, ?_⟩, fun h => ⟨?_, ?_⟩, fun h => ⟨?_, ?_⟩, fun h => ?_,
      fun h => ⟨?_, ?_⟩⟩
    · show sma 50 (List.map (fun b => b.close) bars) i = none
      rw [sma, if_pos h]
    · show (sma 50 (List.map (fun b => b.close) bars) i).map _ = none
      rw [sma, if_pos h]; rfl
    · show sma 100 (List.map (fun b => b.close) bars) i = none
      rw [sma, if_pos h]
    · show (sma 100 (List.map (fun b => b.close) bars) i).map _ = none
      rw [sma, if_pos h]; rfl
    · show sma 200 (List.map (fun b => b.close) bars) i = none
      rw [sma, if_pos h]
    · show (sma 200 (List.map (fun b => b.close) bars) i).map _ = none
      rw [sma, if_pos h]; rfl
    · show momentum5 (List.map (fun b => b.close) bars) i = none
      rw [momentum5, if_pos h]
    · show wilderAvg (trueRange bars) i = none
      exact wilderAvg_undefined _ _ h
    · show rsi14 (List.map (fun b => b.close) bars) i = none
      exact rsi14_undefined _ _ h

/-- C10 (witness): the empty input errors out, and on a one-bar input row 0 has
an undefined 50-day moving average (and no error occurs). -/
theorem C10_insufficient_history_witness :
    fetch_all_data ([] : List PriceBar) = none ∧
    ((calculate_technical_indicators [PriceBar.mk 1 1 1]).getD 0 default).MA_50 = none :=
  ⟨(C10_insufficient_history.1 []).mpr rfl,
    ((C10_insufficient_history.2.2 [PriceBar.mk 1 1 1] 0 (by norm_num)).1 (by norm_num)).1⟩

end MarketPulse
